import Mathlib

/-!
Verification of `src/main.js` of the `nolib_glsl` repository: a single
WebGL bootstrap script that compiles two shaders, links a program,
uploads two vertex attribute buffers and issues one draw call.

The script is shallowly embedded as follows.  Every call the script
makes on the WebGL rendering context is recorded as a `GLEvent` in a
trace; the backend-dependent outcomes (compile status, info logs, link
status, attribute locations, canvas pixel size) are supplied by a
`GLBehavior` oracle.  Handles returned by the context (`createShader`,
`createProgram`, `createBuffer`) are modelled as naturals drawn from a
counter in `GLState`.

JavaScript / WebIDL semantics are modelled strictly: a member access
on a `null` value throws a `TypeError`, and the WebGL binding declares
the shader parameter of `attachShader` and the program parameter of
`getAttribLocation` non-nullable, so passing `null` there throws a
`TypeError` during argument conversion — the context call itself never
happens and no event is recorded for it.  An uncaught `TypeError`
terminates the script; `RunResult.threw` records that.  Consequently a
failed stage compilation makes `createProgram` throw at the
`attachShader` call (line 66 or 67), and a `null` program makes the
top level throw at `getAttribLocation` (line 166), after the buffer
upload of lines 161–163 but before any attribute setup or draw.
-/

/-- The two WebGL shader stage kinds (`gl.VERTEX_SHADER`, `gl.FRAGMENT_SHADER`). -/
inductive ShaderType where
  | vertex
  | fragment
deriving DecidableEq, Repr

/-- `gl.ARRAY_BUFFER`. -/
def ARRAY_BUFFER : Nat := 0x8892

/-- `gl.STATIC_DRAW`. -/
def STATIC_DRAW : Nat := 0x88E4

/-- `gl.FLOAT`. -/
def FLOAT : Nat := 0x1406

/-- `gl.TRIANGLES`. -/
def TRIANGLES : Nat := 0x0004

/-- `gl.COLOR_BUFFER_BIT`. -/
def COLOR_BUFFER_BIT : Nat := 0x4000

/-- One observable action of the script: a `console.error` line or a
completed call on the WebGL context, with the arguments the script
passed.  A call whose argument conversion throws records no event. -/
inductive GLEvent where
  | consoleError (msg : String)
  | createShaderE (t : ShaderType) (id : Nat)
  | shaderSourceE (id : Nat) (src : String)
  | compileShaderE (id : Nat)
  | deleteShaderE (id : Nat)
  | createProgramE (id : Nat)
  | attachShaderE (prog : Nat) (sh : Nat)
  | linkProgramE (prog : Nat)
  | deleteProgramE (id : Nat)
  | createBufferE (id : Nat)
  | bindBufferE (target : Nat) (buf : Nat)
  | bufferDataE (target : Nat) (data : List Rat) (usage : Nat)
  | getAttribLocationE (prog : Nat) (name : String) (loc : Int)
  | vertexAttribPointerE (loc : Int) (size : Nat) (ty : Nat) (normalized : Bool)
      (stride : Nat) (offset : Nat)
  | enableVertexAttribArrayE (loc : Int)
  | viewportE (x : Nat) (y : Nat) (w : Nat) (h : Nat)
  | clearColorE (r : Rat) (g : Rat) (b : Rat) (a : Rat)
  | clearE (mask : Nat)
  | useProgramE (prog : Nat)
  | drawArraysE (mode : Nat) (first : Nat) (count : Nat)
deriving DecidableEq, Repr

/-- Backend-dependent behaviour of the WebGL implementation: whether a
source compiles at a stage, the info logs, whether the fully attached
program links, attribute locations resolved by name, and the canvas
pixel dimensions. -/
structure GLBehavior where
  compileOk : ShaderType → String → Bool
  shaderLog : ShaderType → String → String
  linkOk : String → String → Bool
  programLog : String
  attribLoc : String → Int
  canvasWidth : Nat
  canvasHeight : Nat

/-- The evolving context state: the next fresh handle, the shader
objects currently alive (created and not deleted), and the trace of
events so far. -/
structure GLState where
  nextId : Nat
  liveShaders : List Nat
  trace : List GLEvent
deriving DecidableEq, Repr

/-- The state at the start of the script. -/
def initState : GLState := { nextId := 1, liveShaders := [], trace := [] }

/-- `createShader(gl, type, source)` of `src/main.js` lines 36–48:
create a shader object, set its source, compile; if the compile status
check fails, log the shader info log, delete the shader and return
`null`; otherwise return the shader handle. -/
def createShader (B : GLBehavior) (st : GLState) (t : ShaderType) (source : String) :
    Option Nat × GLState :=
  let id := st.nextId
  let st1 : GLState :=
    { nextId := id + 1
      liveShaders := st.liveShaders ++ [id]
      trace := st.trace ++
        [.createShaderE t id, .shaderSourceE id source, .compileShaderE id] }
  if B.compileOk t source then
    (some id, st1)
  else
    (none,
      { st1 with
        liveShaders := st1.liveShaders.filter (fun x => x != id)
        trace := st1.trace ++
          [.consoleError (B.shaderLog t source), .deleteShaderE id] })

/-- `createProgram(gl, vertexShaderSource, fragmentShaderSource)` of
`src/main.js` lines 61–76: compile both stages via `createShader`,
create a program object, attach the vertex result, attach the fragment
result, link, and poll the link status; on a failed status check log
the program info log and return `null` (without deleting the program;
the result carries `Except.ok none`).  Per the WebIDL binding,
`gl.attachShader(program, null)` throws a `TypeError` (the shader
parameter is non-nullable), so when a stage's compilation returned the
`null` sentinel the corresponding attach throws and the function
terminates there with `Except.error ()` — `gl.linkProgram` is never
reached on that path. -/
def createProgram (B : GLBehavior) (st : GLState) (vsrc fsrc : String) :
    Except Unit (Option Nat) × GLState :=
  let rv := createShader B st .vertex vsrc
  let vertexShader := rv.1
  let rf := createShader B rv.2 .fragment fsrc
  let fragmentShader := rf.1
  let st2 := rf.2
  let pid := st2.nextId
  let st3 : GLState :=
    { st2 with nextId := pid + 1, trace := st2.trace ++ [.createProgramE pid] }
  match vertexShader with
  | none => (.error (), st3)
  | some vs =>
    let st4 : GLState := { st3 with trace := st3.trace ++ [.attachShaderE pid vs] }
    match fragmentShader with
    | none => (.error (), st4)
    | some fs =>
      let st5 : GLState :=
        { st4 with trace := st4.trace ++ [.attachShaderE pid fs, .linkProgramE pid] }
      if B.linkOk vsrc fsrc then
        (.ok (some pid), st5)
      else
        (.ok none, { st5 with trace := st5.trace ++ [.consoleError B.programLog] })

/-- The vertex shader source text (`vertShader`, lines 87–99). -/
def vertShaderSource : String :=
  "\nattribute vec2 a_points;\n\nattribute vec4 a_colors;\nvarying vec4 v_colors;\n\nvoid main() \x7b\n  gl_Position = vec4(a_points, 0, 1);\n\n  /* pass the colors attribute to the fragment */\n  v_colors = a_colors;\n\x7d\n"

/-- The fragment shader source text (`fragShader`, lines 108–118). -/
def fragShaderSource : String :=
  "\n#ifdef GL_ES\nprecision mediump float;\n#endif\n\nvarying vec4 v_colors;\n\nvoid main() \x7b\n  gl_FragColor = v_colors;\n\x7d\n"

/-- `points_arr` (line 146): the triangle's vertex positions, three
2-component points, as exact rationals (every value is exactly
representable as a 32-bit float). -/
def points_arr : List Rat := [-1, -1, 0, 0.5, 1, -1]

/-- `colors_arr` (lines 154–158): three 4-component colors, full alpha. -/
def colors_arr : List Rat := [1, 0, 0, 1, 0, 1, 0, 1, 0, 0, 1, 1]

/-- The `i`-th vertex position as an (x, y) pair read off `points_arr`
with 2 components per vertex. -/
def posVertex (i : Nat) : Option (Rat × Rat) :=
  match points_arr.get? (2 * i), points_arr.get? (2 * i + 1) with
  | some x, some y => some (x, y)
  | _, _ => none

/-- The `i`-th vertex color as an (r, g, b, a) tuple read off
`colors_arr` with 4 components per vertex. -/
def colorVertex (i : Nat) : Option (Rat × Rat × Rat × Rat) :=
  match colors_arr.get? (4 * i), colors_arr.get? (4 * i + 1),
        colors_arr.get? (4 * i + 2), colors_arr.get? (4 * i + 3) with
  | some r, some g, some b, some a => some (r, g, b, a)
  | _, _, _, _ => none

/-- The context calls made by lines 161–202 of `src/main.js` when the
program `p` linked, given the handle `pb` the context hands out for the
points buffer (the colors buffer gets the next one): create and fill
the points buffer, resolve `a_points`, describe its layout
(2 components, 32-bit float, no normalization, stride 0, offset 0) and
enable it; same for the colors buffer with 4 components; then
viewport, clear color, clear, `useProgram`, and one
`drawArrays(TRIANGLES, 0, 3)` call. -/
def afterEvents (B : GLBehavior) (p : Nat) (pb : Nat) : List GLEvent :=
  let ploc : Int := B.attribLoc "a_points"
  let cb := pb + 1
  let cloc : Int := B.attribLoc "a_colors"
  [.createBufferE pb, .bindBufferE ARRAY_BUFFER pb,
   .bufferDataE ARRAY_BUFFER points_arr STATIC_DRAW,
   .getAttribLocationE p "a_points" ploc, .bindBufferE ARRAY_BUFFER pb,
   .vertexAttribPointerE ploc 2 FLOAT false 0 0, .enableVertexAttribArrayE ploc,
   .createBufferE cb, .bindBufferE ARRAY_BUFFER cb,
   .bufferDataE ARRAY_BUFFER colors_arr STATIC_DRAW,
   .getAttribLocationE p "a_colors" cloc, .bindBufferE ARRAY_BUFFER cb,
   .vertexAttribPointerE cloc 4 FLOAT false 0 0, .enableVertexAttribArrayE cloc,
   .viewportE 0 0 B.canvasWidth B.canvasHeight, .clearColorE 0 0 0 1,
   .clearE COLOR_BUFFER_BIT, .useProgramE p,
   .drawArraysE TRIANGLES 0 3]

/-- The context calls made by lines 161–166 when `program` is `null`:
the points buffer is still created, bound and filled (lines 161–163),
and then `gl.getAttribLocation(program, 'a_points')` at line 166
throws a `TypeError` (non-nullable program parameter), so nothing
further executes. -/
def nullProgramEvents (pb : Nat) : List GLEvent :=
  [.createBufferE pb, .bindBufferE ARRAY_BUFFER pb,
   .bufferDataE ARRAY_BUFFER points_arr STATIC_DRAW]

/-- Result of a run of the script (or of its tail): its event trace
and whether it terminated with an uncaught exception. -/
structure RunResult where
  trace : List GLEvent
  threw : Bool
deriving DecidableEq, Repr

/-- Lines 123–202 of `src/main.js` with the canvas and context both
present: build the program; when `createProgram` throws (a stage
compilation failed, so an attach received `null`) the script halts
there; when it returns `null` (link failure) the script logs
`Failed to create program :(`, runs lines 161–163 and halts at the
`getAttribLocation` call on the `null` program; when it returns a
program the whole buffer setup and the draw call run to completion. -/
def runMain (B : GLBehavior) : RunResult :=
  let r := createProgram B initState vertShaderSource fragShaderSource
  match r.1 with
  | .error () => { trace := r.2.trace, threw := true }
  | .ok program =>
    let st :=
      if program.isNone then
        { r.2 with trace := r.2.trace ++ [.consoleError "Failed to create program :("] }
      else r.2
    match program with
    | none => { trace := st.trace ++ nullProgramEvents st.nextId, threw := true }
    | some p => { trace := st.trace ++ afterEvents B p st.nextId, threw := false }

/-- Lines 13–202 of `src/main.js`, parameterised by whether the canvas
lookup and the context acquisition succeed.  A `null` canvas logs
`Canvas not found :(` and the script then throws a `TypeError` at
`canvas.getContext('webgl')` (member access on `null`); a `null`
context logs `WebGL not supported :(` and the script then throws at
the first member access on `gl` (line 62, `gl.VERTEX_SHADER` inside
`createProgram`).  With both present the script runs as `runMain`. -/
def runScript (B : GLBehavior) (canvasPresent glPresent : Bool) : RunResult :=
  if canvasPresent = false then
    { trace := [.consoleError "Canvas not found :("], threw := true }
  else if glPresent = false then
    { trace := [.consoleError "WebGL not supported :("], threw := true }
  else
    runMain B

/-- The events `createShader` appends when the context hands out the
shader handle `id`. -/
def shaderEvents (B : GLBehavior) (id : Nat) (t : ShaderType) (src : String) :
    List GLEvent :=
  [.createShaderE t id, .shaderSourceE id src, .compileShaderE id] ++
  (if B.compileOk t src then []
   else [.consoleError (B.shaderLog t src), .deleteShaderE id])

/-- Whether the program-building pipeline succeeds end to end: both
stages compile and the backend links the pair. -/
def linkStatusOf (B : GLBehavior) (vsrc fsrc : String) : Bool :=
  B.compileOk .vertex vsrc && B.compileOk .fragment fsrc && B.linkOk vsrc fsrc

/-- The events `createProgram` appends when the context's handle
counter stands at `baseId`: the two shader compilations (handles
`baseId`, `baseId + 1`), program creation (handle `baseId + 2`), then
— as far as the throwing attaches allow — the vertex attach, the
fragment attach, the link, and the error log when the link status
check fails. -/
def programEvents (B : GLBehavior) (baseId : Nat) (vsrc fsrc : String) :
    List GLEvent :=
  shaderEvents B baseId .vertex vsrc ++ shaderEvents B (baseId + 1) .fragment fsrc ++
  [.createProgramE (baseId + 2)] ++
  (if B.compileOk .vertex vsrc then
    [.attachShaderE (baseId + 2) baseId] ++
    (if B.compileOk .fragment fsrc then
      [.attachShaderE (baseId + 2) (baseId + 1), .linkProgramE (baseId + 2)] ++
      (if B.linkOk vsrc fsrc then [] else [.consoleError B.programLog])
     else [])
   else [])

/-- Recognizer for draw-call events. -/
def isDrawEvent : GLEvent → Bool
  | .drawArraysE _ _ _ => true
  | _ => false

/-- Recognizer for link-call events. -/
def isLinkEvent : GLEvent → Bool
  | .linkProgramE _ => true
  | _ => false

/-- A backend on which everything succeeds (both sources compile, the
program links); attribute locations 0 and 1, a 300×150 canvas. -/
def defaultBehavior : GLBehavior :=
  { compileOk := fun _ _ => true
    shaderLog := fun _ _ => ""
    linkOk := fun _ _ => true
    programLog := ""
    attribLoc := fun name => if name = "a_points" then 0 else 1
    canvasWidth := 300
    canvasHeight := 150 }

/-- A backend that rejects every fragment-stage source (modelling a
malformed fragment shader, e.g. a missing semicolon) with a non-empty
diagnostic, while the vertex stage compiles. -/
def badFragBehavior : GLBehavior :=
  { defaultBehavior with
    compileOk := fun t _ => match t with | .vertex => true | .fragment => false
    shaderLog := fun _ _ => "ERROR: 0:9: syntax error" }

/-- A backend on which both stages compile but linking fails with a
non-empty diagnostic. -/
def badLinkBehavior : GLBehavior :=
  { defaultBehavior with
    linkOk := fun _ _ => false
    programLog := "link error" }

/-! ### Trace characterizations (helper lemmas) -/

theorem createShader_fst (B : GLBehavior) (st : GLState) (t : ShaderType) (src : String) :
    (createShader B st t src).1 =
      (if B.compileOk t src then some st.nextId else none) := by
  unfold createShader
  cases h : B.compileOk t src <;> simp [h]

theorem createShader_trace (B : GLBehavior) (st : GLState) (t : ShaderType) (src : String) :
    (createShader B st t src).2.trace = st.trace ++ shaderEvents B st.nextId t src := by
  unfold createShader shaderEvents
  cases h : B.compileOk t src <;> simp [h]

theorem createShader_nextId (B : GLBehavior) (st : GLState) (t : ShaderType) (src : String) :
    (createShader B st t src).2.nextId = st.nextId + 1 := by
  unfold createShader
  cases h : B.compileOk t src <;> simp [h]

theorem createShader_live (B : GLBehavior) (st : GLState) (t : ShaderType) (src : String) :
    (st.nextId ∈ (createShader B st t src).2.liveShaders ↔ B.compileOk t src = true) := by
  unfold createShader
  cases h : B.compileOk t src <;> simp [h, List.mem_filter]

theorem createProgram_fst (B : GLBehavior) (st : GLState) (vsrc fsrc : String) :
    (createProgram B st vsrc fsrc).1 =
      (if B.compileOk .vertex vsrc then
        if B.compileOk .fragment fsrc then
          (if B.linkOk vsrc fsrc then Except.ok (some (st.nextId + 2)) else Except.ok none)
        else Except.error ()
       else Except.error ()) := by
  unfold createProgram
  cases hv : B.compileOk .vertex vsrc <;>
    cases hf : B.compileOk .fragment fsrc <;>
      cases hl : B.linkOk vsrc fsrc <;>
        simp [createShader_fst, createShader_nextId, hv, hf, hl]

theorem createProgram_trace (B : GLBehavior) (st : GLState) (vsrc fsrc : String) :
    (createProgram B st vsrc fsrc).2.trace = st.trace ++ programEvents B st.nextId vsrc fsrc := by
  unfold createProgram programEvents
  cases hv : B.compileOk .vertex vsrc <;>
    cases hf : B.compileOk .fragment fsrc <;>
      cases hl : B.linkOk vsrc fsrc <;>
        simp [createShader_fst, createShader_nextId, createShader_trace, hv, hf, hl]

theorem createProgram_nextId (B : GLBehavior) (st : GLState) (vsrc fsrc : String) :
    (createProgram B st vsrc fsrc).2.nextId = st.nextId + 3 := by
  unfold createProgram
  cases hv : B.compileOk .vertex vsrc <;>
    cases hf : B.compileOk .fragment fsrc <;>
      cases hl : B.linkOk vsrc fsrc <;>
        simp [createShader_fst, createShader_nextId, hv, hf, hl]

theorem runMain_success (B : GLBehavior)
    (h : linkStatusOf B vertShaderSource fragShaderSource = true) :
    runMain B =
      { trace := programEvents B 1 vertShaderSource fragShaderSource ++ afterEvents B 3 4
        threw := false } := by
  have h' := h
  unfold linkStatusOf at h'
  rw [Bool.and_eq_true, Bool.and_eq_true] at h'
  obtain ⟨⟨hv, hf⟩, hl⟩ := h'
  unfold runMain
  simp [createProgram_fst, createProgram_trace, createProgram_nextId, hv, hf, hl, initState]

theorem runMain_linkFail (B : GLBehavior)
    (hv : B.compileOk .vertex vertShaderSource = true)
    (hf : B.compileOk .fragment fragShaderSource = true)
    (hl : B.linkOk vertShaderSource fragShaderSource = false) :
    runMain B =
      { trace := programEvents B 1 vertShaderSource fragShaderSource ++
          [.consoleError "Failed to create program :("] ++ nullProgramEvents 4
        threw := true } := by
  unfold runMain
  simp [createProgram_fst, createProgram_trace, createProgram_nextId, hv, hf, hl,
    initState, List.append_assoc]

theorem runMain_compileFail (B : GLBehavior)
    (h : B.compileOk .vertex vertShaderSource = false ∨
         B.compileOk .fragment fragShaderSource = false) :
    runMain B =
      { trace := programEvents B 1 vertShaderSource fragShaderSource, threw := true } := by
  unfold runMain
  rcases h with h | h
  · simp [createProgram_fst, createProgram_trace, h, initState]
  · cases hv : B.compileOk .vertex vertShaderSource <;>
      simp [createProgram_fst, createProgram_trace, hv, h, initState]

/-- Decomposition of the buffer-setup and draw events into the two
attribute-layout blocks and the final draw block. -/
theorem afterEvents_decomp (B : GLBehavior) (p : Nat) (pb : Nat) :
    ∃ ploc cloc,
      afterEvents B p pb =
        [.createBufferE pb, .bindBufferE ARRAY_BUFFER pb,
         .bufferDataE ARRAY_BUFFER points_arr STATIC_DRAW,
         .getAttribLocationE p "a_points" ploc, .bindBufferE ARRAY_BUFFER pb] ++
        [.vertexAttribPointerE ploc 2 FLOAT false 0 0,
         .enableVertexAttribArrayE ploc] ++
        [.createBufferE (pb + 1), .bindBufferE ARRAY_BUFFER (pb + 1),
         .bufferDataE ARRAY_BUFFER colors_arr STATIC_DRAW,
         .getAttribLocationE p "a_colors" cloc, .bindBufferE ARRAY_BUFFER (pb + 1)] ++
        [.vertexAttribPointerE cloc 4 FLOAT false 0 0,
         .enableVertexAttribArrayE cloc] ++
        [.viewportE 0 0 B.canvasWidth B.canvasHeight, .clearColorE 0 0 0 1,
         .clearE COLOR_BUFFER_BIT, .useProgramE p,
         .drawArraysE TRIANGLES 0 3] :=
  ⟨B.attribLoc "a_points", B.attribLoc "a_colors", rfl⟩

theorem countP_isDraw_shaderEvents (B : GLBehavior) (id : Nat) (t : ShaderType)
    (src : String) : (shaderEvents B id t src).countP isDrawEvent = 0 := by
  unfold shaderEvents
  cases h : B.compileOk t src <;> simp [h, isDrawEvent]

theorem countP_isDraw_programEvents (B : GLBehavior) (baseId : Nat)
    (vsrc fsrc : String) : (programEvents B baseId vsrc fsrc).countP isDrawEvent = 0 := by
  unfold programEvents
  cases hv : B.compileOk .vertex vsrc <;>
    cases hf : B.compileOk .fragment fsrc <;>
      cases hl : B.linkOk vsrc fsrc <;>
        simp [hv, hf, hl, List.countP_append, countP_isDraw_shaderEvents, isDrawEvent]

theorem countP_isDraw_afterEvents (B : GLBehavior) (p : Nat) (pb : Nat) :
    (afterEvents B p pb).countP isDrawEvent = 1 := rfl

theorem not_mem_draw_programEvents (B : GLBehavior) (baseId : Nat)
    (vsrc fsrc : String) :
    GLEvent.drawArraysE TRIANGLES 0 3 ∉ programEvents B baseId vsrc fsrc := by
  intro hmem
  have h0 := countP_isDraw_programEvents B baseId vsrc fsrc
  rw [List.countP_eq_zero] at h0
  exact h0 _ hmem rfl

theorem no_link_in_programEvents (B : GLBehavior) (baseId : Nat) (vsrc fsrc : String)
    (h : B.compileOk .vertex vsrc = false ∨ B.compileOk .fragment fsrc = false) :
    ∀ q, GLEvent.linkProgramE q ∉ programEvents B baseId vsrc fsrc := by
  intro q
  unfold programEvents shaderEvents
  rcases h with h | h
  · cases hf : B.compileOk .fragment fsrc <;> simp [h, hf]
  · cases hv : B.compileOk .vertex vsrc <;> simp [hv, h]

/-! ### Claim theorems -/

/-- C5: the vertex position array is exactly the three 2-component
points (-1,-1), (0, 0.5), (1,-1) and the color array exactly the three
fully-opaque 4-component colors red, green, blue; both are single
top-level constants (`def`s here, `const` bindings in the source),
created once and never mutated — the embedding has no operation writing
to them. -/
theorem vertex_arrays_values :
    posVertex 0 = some (-1, -1) ∧ posVertex 1 = some (0, 0.5) ∧
    posVertex 2 = some (1, -1) ∧ posVertex 3 = none ∧
    colorVertex 0 = some (1, 0, 0, 1) ∧ colorVertex 1 = some (0, 1, 0, 1) ∧
    colorVertex 2 = some (0, 0, 1, 1) ∧ colorVertex 3 = none := by
  refine ⟨?_, ?_, ?_, ?_, ?_, ?_, ?_, ?_⟩ <;> rfl

/-- C6: the position array and the color array have equal vertex
counts: 6 / 2 = 12 / 4 = 3, and for every index i below 3 both the
i-th position pair and the i-th color tuple exist. -/
theorem vertex_count_invariant :
    points_arr.length / 2 = 3 ∧ colors_arr.length / 4 = 3 ∧
    points_arr.length / 2 = colors_arr.length / 4 ∧
    ((List.range 3).all fun i => (posVertex i).isSome && (colorVertex i).isSome) = true := by
  refine ⟨rfl, rfl, rfl, ?_⟩
  rfl

/-- C10: `createShader` deletes the shader object it created if and
only if the compile status check fails; on success it returns the
handle, which stays in the live set and is never deleted. -/
theorem createShader_delete_iff (B : GLBehavior) (st : GLState)
    (t : ShaderType) (src : String) :
    ∃ new,
      (createShader B st t src).2.trace = st.trace ++ new ∧
      (GLEvent.deleteShaderE st.nextId ∈ new ↔ B.compileOk t src = false) ∧
      (createShader B st t src).1 =
        (if B.compileOk t src then some st.nextId else none) ∧
      (st.nextId ∈ (createShader B st t src).2.liveShaders ↔ B.compileOk t src = true) := by
  refine ⟨shaderEvents B st.nextId t src, createShader_trace B st t src, ?_,
    createShader_fst B st t src, createShader_live B st t src⟩
  unfold shaderEvents
  cases h : B.compileOk t src <;> simp [h]

/-- C3: whenever the compile status check fails, `createShader` logs
the backend compiler's diagnostic text, deletes the shader resource it
created, and returns `null`.  It never raises an exception on compile
failure: the embedding is a total function into `Option Nat × GLState`,
mirroring the source, which has no `throw` on this path. -/
theorem createShader_compile_failure (B : GLBehavior) (st : GLState)
    (t : ShaderType) (src : String) (h : B.compileOk t src = false) :
    (createShader B st t src).1 = none ∧
    ∃ new,
      (createShader B st t src).2.trace = st.trace ++ new ∧
      GLEvent.consoleError (B.shaderLog t src) ∈ new ∧
      GLEvent.deleteShaderE st.nextId ∈ new ∧
      st.nextId ∉ (createShader B st t src).2.liveShaders := by
  refine ⟨?_, shaderEvents B st.nextId t src, createShader_trace B st t src, ?_, ?_, ?_⟩
  · rw [createShader_fst, h]
    rfl
  · unfold shaderEvents
    simp [h]
  · unfold shaderEvents
    simp [h]
  · rw [createShader_live, h]
    simp

/-- Witness for C3 at a concrete failing input: the fragment source
under the rejecting backend. -/
theorem createShader_compile_failure_witness :
    badFragBehavior.compileOk .fragment fragShaderSource = false ∧
    ((createShader badFragBehavior initState .fragment fragShaderSource).1 = none ∧
     ∃ new,
       (createShader badFragBehavior initState .fragment fragShaderSource).2.trace =
         initState.trace ++ new ∧
       GLEvent.consoleError
         (badFragBehavior.shaderLog .fragment fragShaderSource) ∈ new ∧
       GLEvent.deleteShaderE initState.nextId ∈ new ∧
       initState.nextId ∉
         (createShader badFragBehavior initState .fragment fragShaderSource).2.liveShaders) :=
  ⟨rfl, createShader_compile_failure badFragBehavior initState .fragment fragShaderSource rfl⟩

/-- C4: on the link-failure path (both stages compiled and attached,
the link status check fails), `createProgram` logs the linker
diagnostic text and returns `null`, and it never emits a
`deleteProgram` call: the program object it created is left intact
(asymmetric with the shader cleanup of `createShader`). -/
theorem createProgram_link_failure (B : GLBehavior) (st : GLState)
    (vsrc fsrc : String)
    (hv : B.compileOk .vertex vsrc = true) (hf : B.compileOk .fragment fsrc = true)
    (hl : B.linkOk vsrc fsrc = false) :
    (createProgram B st vsrc fsrc).1 = Except.ok none ∧
    ∃ new,
      (createProgram B st vsrc fsrc).2.trace = st.trace ++ new ∧
      GLEvent.consoleError B.programLog ∈ new ∧
      (∃ p, GLEvent.createProgramE p ∈ new) ∧
      ∀ q, GLEvent.deleteProgramE q ∉ new := by
  refine ⟨?_, programEvents B st.nextId vsrc fsrc, createProgram_trace B st vsrc fsrc,
    ?_, ⟨st.nextId + 2, ?_⟩, ?_⟩
  · rw [createProgram_fst]
    simp [hv, hf, hl]
  · unfold programEvents
    simp [hv, hf, hl]
  · unfold programEvents
    simp
  · intro q
    unfold programEvents shaderEvents
    simp [hv, hf, hl]

/-- Witness for C4: both stages compile but the backend refuses to
link, so the link status check fails. -/
theorem createProgram_link_failure_witness :
    (badLinkBehavior.compileOk .vertex vertShaderSource = true ∧
     badLinkBehavior.compileOk .fragment fragShaderSource = true ∧
     badLinkBehavior.linkOk vertShaderSource fragShaderSource = false) ∧
    ((createProgram badLinkBehavior initState vertShaderSource fragShaderSource).1 =
       Except.ok none ∧
     ∃ new,
       (createProgram badLinkBehavior initState vertShaderSource fragShaderSource).2.trace =
         initState.trace ++ new ∧
       GLEvent.consoleError badLinkBehavior.programLog ∈ new ∧
       (∃ p, GLEvent.createProgramE p ∈ new) ∧
       ∀ q, GLEvent.deleteProgramE q ∉ new) :=
  ⟨⟨rfl, rfl, rfl⟩, createProgram_link_failure badLinkBehavior initState
    vertShaderSource fragShaderSource rfl rfl rfl⟩

/-- C2 counterexample: with a backend that rejects the fragment source,
`createShader` returns the `null` sentinel, and `createProgram` throws
a `TypeError` at `gl.attachShader(program, null)` (line 67): the call
ends in the error outcome and its trace contains no `linkProgram`
event at all, so "proceeds to link" is false. -/
theorem createProgram_null_attach_no_link_cex :
    (createProgram badFragBehavior initState vertShaderSource fragShaderSource).1 =
      Except.error () ∧
    ((createProgram badFragBehavior initState
        vertShaderSource fragShaderSource).2.trace.countP isLinkEvent) = 0 :=
  ⟨rfl, rfl⟩

/-- C2 amended: when either stage's compilation returns the `null`
sentinel, `createProgram` does not short-circuit before creating the
program object (`gl.createProgram()` at line 64 runs first), but it
does not proceed to link: the `attachShader` call that receives `null`
throws a `TypeError` (non-nullable WebIDL parameter), terminating
`createProgram` before `gl.linkProgram` is ever reached. -/
theorem createProgram_null_attach_throws (B : GLBehavior) (st : GLState)
    (vsrc fsrc : String)
    (h : B.compileOk .vertex vsrc = false ∨ B.compileOk .fragment fsrc = false) :
    (createProgram B st vsrc fsrc).1 = Except.error () ∧
    ∃ new,
      (createProgram B st vsrc fsrc).2.trace = st.trace ++ new ∧
      GLEvent.createProgramE (st.nextId + 2) ∈ new ∧
      ∀ q, GLEvent.linkProgramE q ∉ new := by
  refine ⟨?_, programEvents B st.nextId vsrc fsrc, createProgram_trace B st vsrc fsrc,
    ?_, no_link_in_programEvents B st.nextId vsrc fsrc h⟩
  · rw [createProgram_fst]
    rcases h with h | h
    · simp [h]
    · cases hv : B.compileOk .vertex vsrc <;> simp [hv, h]
  · unfold programEvents
    simp

/-- Witness for the amended C2: the fragment stage fails under the
rejecting backend. -/
theorem createProgram_null_attach_throws_witness :
    (badFragBehavior.compileOk .vertex vertShaderSource = false ∨
     badFragBehavior.compileOk .fragment fragShaderSource = false) ∧
    ((createProgram badFragBehavior initState vertShaderSource fragShaderSource).1 =
       Except.error () ∧
     ∃ new,
       (createProgram badFragBehavior initState vertShaderSource fragShaderSource).2.trace =
         initState.trace ++ new ∧
       GLEvent.createProgramE (initState.nextId + 2) ∈ new ∧
       ∀ q, GLEvent.linkProgramE q ∉ new) :=
  ⟨Or.inr rfl, createProgram_null_attach_throws badFragBehavior initState
    vertShaderSource fragShaderSource (Or.inr rfl)⟩

/-- C7: on a run whose program builds end to end, each of the two
vertex attributes is described to the context with its component count
(2 for `a_points`, 4 for `a_colors`), element type 32-bit float, no
normalization, stride 0 and offset 0, and the attribute slot is
enabled immediately afterwards.  (On any failing run the script throws
before reaching the attribute setup, so this is the only path on which
the layout is described at all.) -/
theorem attribute_layout_described (B : GLBehavior)
    (h : linkStatusOf B vertShaderSource fragShaderSource = true) :
    ∃ ploc cloc pre mid post,
      (runMain B).trace =
        pre ++
        [GLEvent.vertexAttribPointerE ploc 2 FLOAT false 0 0,
         GLEvent.enableVertexAttribArrayE ploc] ++
        mid ++
        [GLEvent.vertexAttribPointerE cloc 4 FLOAT false 0 0,
         GLEvent.enableVertexAttribArrayE cloc] ++
        post := by
  obtain ⟨ploc, cloc, hd⟩ := afterEvents_decomp B 3 4
  refine ⟨ploc, cloc,
    programEvents B 1 vertShaderSource fragShaderSource ++
      [.createBufferE 4, .bindBufferE ARRAY_BUFFER 4,
       .bufferDataE ARRAY_BUFFER points_arr STATIC_DRAW,
       .getAttribLocationE 3 "a_points" ploc, .bindBufferE ARRAY_BUFFER 4],
    [.createBufferE 5, .bindBufferE ARRAY_BUFFER 5,
     .bufferDataE ARRAY_BUFFER colors_arr STATIC_DRAW,
     .getAttribLocationE 3 "a_colors" cloc, .bindBufferE ARRAY_BUFFER 5],
    [.viewportE 0 0 B.canvasWidth B.canvasHeight, .clearColorE 0 0 0 1,
     .clearE COLOR_BUFFER_BIT, .useProgramE 3,
     .drawArraysE TRIANGLES 0 3], ?_⟩
  rw [runMain_success B h]
  simp only []
  rw [hd]
  simp [List.append_assoc]

/-- Witness for C7 at the all-success backend. -/
theorem attribute_layout_described_witness :
    linkStatusOf defaultBehavior vertShaderSource fragShaderSource = true ∧
    ∃ ploc cloc pre mid post,
      (runMain defaultBehavior).trace =
        pre ++
        [GLEvent.vertexAttribPointerE ploc 2 FLOAT false 0 0,
         GLEvent.enableVertexAttribArrayE ploc] ++
        mid ++
        [GLEvent.vertexAttribPointerE cloc 4 FLOAT false 0 0,
         GLEvent.enableVertexAttribArrayE cloc] ++
        post :=
  ⟨rfl, attribute_layout_described defaultBehavior rfl⟩

/-- C8: on a run whose program builds end to end, the trace ends with,
in order: viewport set to the surface's full pixel dimensions, clear
color opaque black, clear of the color buffer, program activation, and
a draw call for a triangle list starting at vertex 0 with 3 vertices;
the whole run contains exactly one draw-call event.  (On any failing
run the script throws before the draw, so no run ever draws more than
once.) -/
theorem draw_submission_sequence (B : GLBehavior)
    (h : linkStatusOf B vertShaderSource fragShaderSource = true) :
    ∃ prog pre,
      (runMain B).trace =
        pre ++
        [GLEvent.viewportE 0 0 B.canvasWidth B.canvasHeight,
         GLEvent.clearColorE 0 0 0 1, GLEvent.clearE COLOR_BUFFER_BIT,
         GLEvent.useProgramE prog, GLEvent.drawArraysE TRIANGLES 0 3] ∧
      (runMain B).trace.countP isDrawEvent = 1 := by
  obtain ⟨ploc, cloc, hd⟩ := afterEvents_decomp B 3 4
  refine ⟨3,
    programEvents B 1 vertShaderSource fragShaderSource ++
      [.createBufferE 4, .bindBufferE ARRAY_BUFFER 4,
       .bufferDataE ARRAY_BUFFER points_arr STATIC_DRAW,
       .getAttribLocationE 3 "a_points" ploc, .bindBufferE ARRAY_BUFFER 4,
       .vertexAttribPointerE ploc 2 FLOAT false 0 0, .enableVertexAttribArrayE ploc,
       .createBufferE 5, .bindBufferE ARRAY_BUFFER 5,
       .bufferDataE ARRAY_BUFFER colors_arr STATIC_DRAW,
       .getAttribLocationE 3 "a_colors" cloc, .bindBufferE ARRAY_BUFFER 5,
       .vertexAttribPointerE cloc 4 FLOAT false 0 0, .enableVertexAttribArrayE cloc],
    ?_, ?_⟩
  · rw [runMain_success B h]
    simp only []
    rw [hd]
    simp [List.append_assoc]
  · rw [runMain_success B h]
    simp only []
    rw [List.countP_append, countP_isDraw_programEvents, countP_isDraw_afterEvents]

/-- Witness for C8 at the all-success backend. -/
theorem draw_submission_sequence_witness :
    linkStatusOf defaultBehavior vertShaderSource fragShaderSource = true ∧
    ∃ prog pre,
      (runMain defaultBehavior).trace =
        pre ++
        [GLEvent.viewportE 0 0 defaultBehavior.canvasWidth defaultBehavior.canvasHeight,
         GLEvent.clearColorE 0 0 0 1, GLEvent.clearE COLOR_BUFFER_BIT,
         GLEvent.useProgramE prog, GLEvent.drawArraysE TRIANGLES 0 3] ∧
      (runMain defaultBehavior).trace.countP isDrawEvent = 1 :=
  ⟨rfl, draw_submission_sequence defaultBehavior rfl⟩

/-- C1 counterexample: with a backend that rejects the (malformed)
fragment source, `createProgram` does not return `null` — it throws a
`TypeError` at `gl.attachShader(program, null)` (line 67) — and the
whole run terminates there with that uncaught exception. -/
theorem malformed_fragment_no_null_cex :
    (createProgram badFragBehavior initState vertShaderSource fragShaderSource).1 =
      Except.error () ∧
    (createProgram badFragBehavior initState vertShaderSource fragShaderSource).1 ≠
      Except.ok none ∧
    (runMain badFragBehavior).threw = true := by
  have h1 : (createProgram badFragBehavior initState vertShaderSource fragShaderSource).1 =
      Except.error () := rfl
  refine ⟨h1, ?_, rfl⟩
  rw [h1]
  intro hc
  exact Except.noConfusion hc

/-- C1 amended: when the backend rejects the fragment source with a
non-empty diagnostic (the vertex stage compiling), a non-empty
diagnostic text is logged and no draw call is attempted — but
`createProgram` does not return `null`: it throws a `TypeError` at the
`attachShader` call that receives the `null` fragment shader, which
terminates the script before the link, the `Failed to create program`
log, and all of the buffer setup and the draw. -/
theorem malformed_fragment_logs_and_halts (B : GLBehavior)
    (hv : B.compileOk .vertex vertShaderSource = true)
    (hf : B.compileOk .fragment fragShaderSource = false)
    (hlog : B.shaderLog .fragment fragShaderSource ≠ "") :
    (createProgram B initState vertShaderSource fragShaderSource).1 = Except.error () ∧
    (∃ msg, msg ≠ "" ∧ GLEvent.consoleError msg ∈ (runMain B).trace) ∧
    (runMain B).threw = true ∧
    GLEvent.drawArraysE TRIANGLES 0 3 ∉ (runMain B).trace := by
  have hrm := runMain_compileFail B (Or.inr hf)
  refine ⟨?_, ⟨B.shaderLog .fragment fragShaderSource, hlog, ?_⟩, ?_, ?_⟩
  · rw [createProgram_fst]
    simp [hv, hf]
  · rw [hrm]
    simp only []
    unfold programEvents shaderEvents
    simp [hf]
  · rw [hrm]
  · rw [hrm]
    exact not_mem_draw_programEvents B 1 vertShaderSource fragShaderSource

/-- Witness for the amended C1 at the rejecting backend. -/
theorem malformed_fragment_logs_and_halts_witness :
    (badFragBehavior.compileOk .vertex vertShaderSource = true ∧
     badFragBehavior.compileOk .fragment fragShaderSource = false ∧
     badFragBehavior.shaderLog .fragment fragShaderSource ≠ "") ∧
    ((createProgram badFragBehavior initState vertShaderSource fragShaderSource).1 =
       Except.error () ∧
     (∃ msg, msg ≠ "" ∧ GLEvent.consoleError msg ∈ (runMain badFragBehavior).trace) ∧
     (runMain badFragBehavior).threw = true ∧
     GLEvent.drawArraysE TRIANGLES 0 3 ∉ (runMain badFragBehavior).trace) :=
  ⟨⟨rfl, rfl, by decide⟩, malformed_fragment_logs_and_halts badFragBehavior rfl rfl (by decide)⟩

/-- C9 counterexample: when the context acquisition yields `null`, the
script logs and then terminates with an uncaught `TypeError` at the
first member access on the `null` handle, so the subsequent top-level
statements — the draw call in particular — are not attempted; the
claim's "does not halt" and "every subsequent top-level statement is
still attempted" are false. -/
theorem null_context_halts_cex :
    (runScript defaultBehavior true false).threw = true ∧
    GLEvent.drawArraysE TRIANGLES 0 3 ∉ (runScript defaultBehavior true false).trace := by
  constructor
  · rfl
  · simp [runScript]

/-- C9 amended: a `null` canvas or context makes the guard log exactly
one error message (the script has no explicit early return), after
which the run terminates with a thrown `TypeError` at the next member
access on the `null` value, so no later top-level statement executes:
the trace holds nothing but the log line. -/
theorem null_handle_logs_then_throws (B : GLBehavior) (glP : Bool) :
    (runScript B false glP).threw = true ∧
    (runScript B false glP).trace = [GLEvent.consoleError "Canvas not found :("] ∧
    (runScript B true false).threw = true ∧
    (runScript B true false).trace = [GLEvent.consoleError "WebGL not supported :("] :=
  ⟨rfl, rfl, rfl, rfl⟩
